import Mathlib

/-!
Verification development for `init_duckdb.py` of the
`antismash_db-schema_duckdb` repository: a shallow embedding of the
script's text-rewriting pipeline (PostgreSQL dump to DuckDB), its
dump-to-CSV extractor and its schema-materializing main loop, followed by
theorems settling the stated claims about the program.

Strings are modelled as `List Char` internally (with `String` wrappers),
and every function is written by structural or fuel-bounded recursion so
that all definitions evaluate by `decide` / `rfl`.
-/

set_option maxRecDepth 20000

/-- ASCII fragment of Python's regex class `\w` (the inputs handled by the
script are ASCII SQL): letters, digits and underscore. -/
def pyWord (c : Char) : Bool :=
  c.isAlphanum || c = '_'

/-- Python's whitespace class (`\s` of `re`, and the default strip set of
`str.strip`): space, tab, newline, carriage return, form feed, vertical tab. -/
def pySpace (c : Char) : Bool :=
  c = ' ' || c = '\t' || c = '\n' || c = '\r' || c = '\x0b' || c = '\x0c'

/-- Does `pat` start the list `l`? (literal character-by-character test). -/
def startsWithL : List Char → List Char → Bool
  | [], _ => true
  | _ :: _, [] => false
  | p :: ps, c :: cs => p = c && startsWithL ps cs

/-- Does the literal pattern `pat` occur anywhere in `l`? -/
def occursB (pat : List Char) : List Char → Bool
  | [] => startsWithL pat []
  | c :: rest => startsWithL pat (c :: rest) || occursB pat rest

/-- Python `str.strip()` on a character list: drop leading and trailing
whitespace. -/
def pyStripL (l : List Char) : List Char :=
  ((l.dropWhile pySpace).reverse.dropWhile pySpace).reverse

/-- Python `str.strip()` on a `String`. -/
def pyStrip (s : String) : String :=
  ⟨pyStripL s.data⟩

/-- Python `str.split(sep)` for a one-character separator: keeps empty
fields, `"".split(sep) = [""]`. -/
def pySplitGo (sep : Char) (cur : List Char) : List Char → List (List Char)
  | [] => [cur]
  | c :: rest =>
      if c = sep then cur :: pySplitGo sep [] rest
      else pySplitGo sep (cur ++ [c]) rest

/-- Python `str.split(";")` on a `String` (used by the degraded retry of the
materializer, line 448 of `init_duckdb.py`). -/
def pySplitSemi (s : String) : List String :=
  (pySplitGo ';' [] s.data).map String.mk

/-- Python `str.startswith` on `String`s. -/
def pyStartsWith (s pre : String) : Bool :=
  startsWithL pre.data s.data

/-!
## Statement splitting (model of `sqlparse.parse` / `sqlparse.split`)

`init_duckdb.py` splits SQL blobs with the external `sqlparse` library
(lines 44-48 and 421-425).  Per the spec (§2.1, §9) a statement boundary is
a semicolon that is not inside a string literal, quoted identifier, or
comment; `sqlparse` keeps each terminating semicolon inside the statement
that it ends (`sqlparse.split("A; B;") = ["A;", "B;"]`), and the text after
the last semicolon, if any, forms one final statement.  The lexer below
tracks exactly those states, one character at a time.
-/

/-- Lexer state of the statement splitter: top level, a pending `-` (maybe
starting `--`), a pending `/` (maybe starting a block comment), inside a
single-quoted string, inside a double-quoted identifier, inside a line
comment, inside a block comment (with `blockStar` after a `*` that may
close it). -/
inductive LexSt
  | top | dash | slash | single | double | lineC | blockC | blockStar
deriving DecidableEq, Repr

/-- One-character transition of the splitter's lexer. -/
def lexStep : LexSt → Char → LexSt
  | .top, c =>
      if c = '\'' then .single else if c = '"' then .double
      else if c = '-' then .dash else if c = '/' then .slash else .top
  | .dash, c =>
      if c = '-' then .lineC
      else if c = '\'' then .single else if c = '"' then .double
      else if c = '/' then .slash else .top
  | .slash, c =>
      if c = '*' then .blockC
      else if c = '\'' then .single else if c = '"' then .double
      else if c = '-' then .dash else if c = '/' then .slash else .top
  | .single, c => if c = '\'' then .top else .single
  | .double, c => if c = '"' then .top else .double
  | .lineC, c => if c = '\n' then .top else .lineC
  | .blockC, c => if c = '*' then .blockStar else .blockC
  | .blockStar, c =>
      if c = '/' then .top else if c = '*' then .blockStar else .blockC

/-- Is `c` a statement boundary in lexer state `lx`?  Only a semicolon at
top level (including after a lone `-` or `/`). -/
def closesHere (lx : LexSt) (c : Char) : Bool :=
  c = ';' &&
    (match lx with
     | .top => true | .dash => true | .slash => true
     | _ => false)

/-- State of the statement splitter: lexer state, characters of the current
statement, completed statements. -/
structure SpState where
  lx : LexSt
  acc : List Char
  done : List (List Char)
deriving DecidableEq, Repr

/-- One step of the splitter: a boundary semicolon closes the current
statement (the semicolon stays with it); any other character is appended. -/
def spStep (st : SpState) (c : Char) : SpState :=
  if closesHere st.lx c then ⟨.top, [], st.done ++ [st.acc ++ [';']]⟩
  else ⟨lexStep st.lx c, st.acc ++ [c], st.done⟩

/-- Run the splitter over a list of characters. -/
def spRun (st : SpState) (l : List Char) : SpState :=
  l.foldl spStep st

/-- The raw statements of a blob, in order, as `sqlparse.parse` yields them
(each closed statement keeps its semicolon; trailing text forms a final
statement when non-empty). -/
def rawStatements (l : List Char) : List (List Char) :=
  let st := spRun ⟨.top, [], []⟩ l
  st.done ++ (if st.acc = [] then [] else [st.acc])

/-- Model of `[str(s).strip() for s in sqlparse.parse(sql) if str(s).strip()]` —
the statement list built at lines 44-48 and 421-425 of `init_duckdb.py`. -/
def parsedStatements (l : List Char) : List (List Char) :=
  ((rawStatements l).map pyStripL).filter (fun s => s ≠ [])

/-- Lines 421-426 of `init_duckdb.py`: parse, strip, drop empties, then drop
statements that are exactly `";"`. -/
def splitStatementsCore (l : List Char) : List (List Char) :=
  (parsedStatements l).filter (fun s => s ≠ [';'])

/-- String-level version of the materializer's statement splitting. -/
def splitStatements (s : String) : List String :=
  (splitStatementsCore s.data).map String.mk

/-!
## The serial-column rewriter (`convert_serial_to_sequence`, lines 11-92)

The Python function parses the blob into statements, and for each
`CREATE TABLE` statement whose name matches `CREATE TABLE (\w+\.\w+)`
collects every match of `(\w+)\s+serial` (`re.findall`), replaces each
matched column definition once (`re.sub(..., count=1)`) with
`<col> INTEGER DEFAULT nextval('<schema>.<table>_<col>_seq')`, and emits a
`CREATE SEQUENCE <schema>.<table>_<col>_seq START 1;` declaration per match
in front of the statement.  The processed statements are rejoined with
`";".join(...)`.

The regex `(\w+)\s+serial` is compiled below into an equivalent
deterministic scanner: `\w` and `\s` are disjoint character classes and
`serial` starts with a word character, so the greedy matcher never
backtracks; a failed literal match resumes with the already-consumed prefix
of `serial` as the start of the next candidate word run, exactly as the
regex engine's advance-by-one retry does.
-/

/-- Mode of the `(\w+)\s+serial` scanner: outside any candidate, inside a
word run, in the whitespace after a word run, or matching the literal
`serial` (with the word run, the matched prefix and the remaining suffix of
the literal). -/
inductive FMode
  | idle
  | word (buf : List Char)
  | gap (buf : List Char)
  | lit (buf matched rem : List Char)
deriving DecidableEq, Repr

/-- State of the `(\w+)\s+serial` scanner: matches found so far (their
group 1, the column name), and the current mode. -/
structure FState where
  out : List (List Char)
  mode : FMode
deriving DecidableEq, Repr

/-- One character of the `(\w+)\s+serial` scan. -/
def fmStep (st : FState) (c : Char) : FState :=
  match st.mode with
  | .idle => if pyWord c then ⟨st.out, .word [c]⟩ else ⟨st.out, .idle⟩
  | .word buf =>
      if pyWord c then ⟨st.out, .word (buf ++ [c])⟩
      else if pySpace c then ⟨st.out, .gap buf⟩
      else ⟨st.out, .idle⟩
  | .gap buf =>
      if pySpace c then ⟨st.out, .gap buf⟩
      else if c = 's' then ⟨st.out, .lit buf ['s'] ['e', 'r', 'i', 'a', 'l']⟩
      else if pyWord c then ⟨st.out, .word [c]⟩
      else ⟨st.out, .idle⟩
  | .lit buf matched rem =>
      match rem with
      | r :: rs =>
          if c = r then
            if rs = [] then ⟨st.out ++ [buf], .idle⟩
            else ⟨st.out, .lit buf (matched ++ [c]) rs⟩
          else if pyWord c then ⟨st.out, .word (matched ++ [c])⟩
          else if pySpace c then ⟨st.out, .gap matched⟩
          else ⟨st.out, .idle⟩
      | [] => ⟨st.out, .idle⟩

/-- Model of `re.findall(r"(\w+)\s+serial", statement)`: the captured column names,
leftmost first, non-overlapping. -/
def findallSerial (l : List Char) : List (List Char) :=
  (l.foldl fmStep ⟨[], .idle⟩).out

/-- Model of `re.search(r"CREATE TABLE (\w+\.\w+)", statement)` at one position:
requires the literal `CREATE TABLE ` followed by a word run, a dot and a
word run; returns the captured `schema.table` name. -/
def matchCreateTableAt (l : List Char) : Option (List Char) :=
  if startsWithL ("CREATE TABLE ".data) l then
    let after := l.drop 13
    let w1 := after.takeWhile pyWord
    if w1 = [] then none
    else
      match after.drop w1.length with
      | '.' :: rest2 =>
          let w2 := rest2.takeWhile pyWord
          if w2 = [] then none else some (w1 ++ ['.'] ++ w2)
      | _ => none
  else none

/-- Model of `re.search(r"CREATE TABLE (\w+\.\w+)", statement)`: leftmost match's
captured group, if any. -/
def searchCreateTable : List Char → Option (List Char)
  | [] => none
  | c :: rest =>
      match matchCreateTableAt (c :: rest) with
      | some name => some name
      | none => searchCreateTable rest

/-- Length of a match of `<col>\s+serial` at the head of `l`, if any:
the column name, at least one whitespace character, then `serial`. -/
def matchColSerialLen (col : List Char) (l : List Char) : Option Nat :=
  if startsWithL col l then
    let after := l.drop col.length
    let ws := (after.takeWhile pySpace).length
    if ws ≠ 0 && startsWithL ("serial".data) (after.drop ws) then
      some (col.length + ws + 6)
    else none
  else none

/-- Model of `re.sub(rf"{column_name}\s+serial", repl, statement, count=1)`:
replace the leftmost occurrence only; the rest of the text is untouched. -/
def subFirstColSerial (col repl : List Char) : List Char → List Char
  | [] => []
  | c :: rest =>
      match matchColSerialLen col (c :: rest) with
      | some n => repl ++ (c :: rest).drop n
      | none => c :: subFirstColSerial col repl rest

/-- The sequence name `f"{table_name}_{column_name}_seq"` (line 35). -/
def sequenceName (tableName col : List Char) : List Char :=
  tableName ++ ['_'] ++ col ++ ("_seq".data)

/-- The declaration `f"CREATE SEQUENCE {schema}.{sequence_name} START 1;"` with the default
schema `antismash` (line 37). -/
def sequenceDeclaration (tableName col : List Char) : List Char :=
  ("CREATE SEQUENCE antismash.".data) ++ sequenceName tableName col ++
    (" START 1;".data)

/-- The rewritten column `f"{column_name} INTEGER DEFAULT nextval('{schema}.{sequence_name}')"`
(lines 38-40). -/
def columnDeclaration (tableName col : List Char) : List Char :=
  col ++ (" INTEGER DEFAULT nextval('antismash.".data) ++
    sequenceName tableName col ++ ("')".data)

/-- Lines 51-88 of `init_duckdb.py`, for one parsed statement: if it
contains `CREATE TABLE` and its name matches, rewrite each found serial
column once and place the sequence declarations (newline-joined) in front;
otherwise return the statement unchanged. -/
def processSerialStmt (stmt : List Char) : List Char :=
  if occursB ("CREATE TABLE".data) stmt then
    match searchCreateTable stmt with
    | some name =>
        let tableName := name.map (fun c => if c = '.' then '_' else c)
        let cols := findallSerial stmt
        let rewritten := cols.foldl
          (fun st col => subFirstColSerial col (columnDeclaration tableName col) st)
          stmt
        if cols = [] then rewritten
        else
          List.intercalate ['\n'] (cols.map (sequenceDeclaration tableName)) ++
            '\n' :: rewritten
    | none => stmt
  else stmt

/-- Model of `convert_serial_to_sequence` (lines 11-92): split into statements,
process each, rejoin with `";"`.  Note the rejoin: every parsed statement
already ends in its own semicolon, so consecutive statements are separated
by `;;` in the result. -/
def convertSerialCore (l : List Char) : List Char :=
  List.intercalate [';'] ((parsedStatements l).map processSerialStmt)

/-- String-level `convert_serial_to_sequence`. -/
def convert_serial_to_sequence (s : String) : String :=
  ⟨convertSerialCore s.data⟩

/-!
## The remaining rewrite stages of `convert_postgres_to_duckdb` (lines 95-145)

Stage order in the source: strip `^\s*---.*\n?` lines, collapse `\s+` to a
single space, normalize `;\s*` to `;\n`, run the serial rewriter, delete
the three `ON DELETE ...` clauses, apply the two `as_domains`-specific
substitutions, then the literal `str.replace` conversions.
-/

/-- Mode of the `(?m)^\s*---.*\n?` stripper: at a line start accumulating
candidate leading whitespace (`lineStart`), after one or two dashes at a
line start (`dash1`, `dash2`), inside a matched `---` line being deleted
(`inComment`), or in ordinary text (`normal`). -/
inductive DashMode
  | lineStart (buf : List Char)
  | dash1 (buf : List Char)
  | dash2 (buf : List Char)
  | inComment
  | normal
deriving DecidableEq, Repr

/-- One character of the `re.sub(r"(?m)^\s*---.*\n?", "", sql)` scan.  A
failed attempt flushes the buffered whitespace and dashes: the regex's
later retries inside that region all fail at the same first non-whitespace
character, so nothing else can match before the next line start. -/
def dashStep (m : DashMode) (c : Char) : DashMode × List Char :=
  match m with
  | .lineStart buf =>
      if pySpace c then (.lineStart (buf ++ [c]), [])
      else if c = '-' then (.dash1 buf, [])
      else if c = '\n' then (.lineStart [], buf ++ [c])
      else (.normal, buf ++ [c])
  | .dash1 buf =>
      if c = '-' then (.dash2 buf, [])
      else if c = '\n' then (.lineStart [], buf ++ ['-', c])
      else (.normal, buf ++ ['-', c])
  | .dash2 buf =>
      if c = '-' then (.inComment, [])
      else if c = '\n' then (.lineStart [], buf ++ ['-', '-', c])
      else (.normal, buf ++ ['-', '-', c])
  | .inComment =>
      if c = '\n' then (.lineStart [], []) else (.inComment, [])
  | .normal =>
      if c = '\n' then (.lineStart [], [c]) else (.normal, [c])

/-- Run the `---`-line stripper, emitting the retained characters. -/
def dashRun (m : DashMode) : List Char → List Char
  | [] =>
      (match m with
       | .lineStart buf => buf
       | .dash1 buf => buf ++ ['-']
       | .dash2 buf => buf ++ ['-', '-']
       | .inComment => []
       | .normal => [])
  | c :: rest =>
      let s := dashStep m c
      s.2 ++ dashRun s.1 rest

/-- Model of `re.sub(r"(?m)^\s*---.*\n?", "", sql)` (line 114). -/
def stripDashLines (l : List Char) : List Char :=
  dashRun (.lineStart []) l

/-- Model of `re.sub(r"\s+", " ", sql)` (lines 117-119): every maximal whitespace
run becomes a single space.  The flag records being inside a run. -/
def collapseGo (inWS : Bool) : List Char → List Char
  | [] => []
  | c :: rest =>
      if pySpace c then
        if inWS then collapseGo true rest else ' ' :: collapseGo true rest
      else c :: collapseGo false rest

/-- Model of `re.sub(r";\s*", ";\n", sql)` (lines 120-122): each semicolon and the
whitespace run after it become `;\n`.  The flag records skipping that run. -/
def semiNLGo (skip : Bool) : List Char → List Char
  | [] => []
  | c :: rest =>
      if skip && pySpace c then semiNLGo true rest
      else if c = ';' then ';' :: '\n' :: semiNLGo true rest
      else c :: semiNLGo false rest

/-- Replace every occurrence of the literal `pat` by `repl`, scanning left
to right without overlap (`re.sub` with a metacharacter-free pattern, and
`str.replace`).  Fuel-bounded: each step consumes at least one character,
so `l.length` fuel always suffices. -/
def replaceAllFuel (pat repl : List Char) : Nat → List Char → List Char
  | _, [] => []
  | 0, l => l
  | fuel + 1, c :: rest =>
      if pat ≠ [] && startsWithL pat (c :: rest) then
        repl ++ replaceAllFuel pat repl fuel ((c :: rest).drop pat.length)
      else c :: replaceAllFuel pat repl fuel rest

/-- Wrapper choosing sufficient fuel. -/
def replaceAllL (pat repl l : List Char) : List Char :=
  replaceAllFuel pat repl l.length l

/-- Prefix test where `.` in the pattern matches any character (the only
regex metacharacter occurring in the two `as_domains` patterns). -/
def startsWithDot : List Char → List Char → Bool
  | [], _ => true
  | _ :: _, [] => false
  | p :: ps, c :: cs => (p = '.' || p = c) && startsWithDot ps cs

/-- Model of `re.sub` for a pattern whose only metacharacter is `.` (lines 133-140). -/
def replaceAllDotFuel (pat repl : List Char) : Nat → List Char → List Char
  | _, [] => []
  | 0, l => l
  | fuel + 1, c :: rest =>
      if pat ≠ [] && startsWithDot pat (c :: rest) then
        repl ++ replaceAllDotFuel pat repl fuel ((c :: rest).drop pat.length)
      else c :: replaceAllDotFuel pat repl fuel rest

/-- Wrapper choosing sufficient fuel. -/
def replaceAllDotL (pat repl l : List Char) : List Char :=
  replaceAllDotFuel pat repl l.length l

/-- Model of `convert_postgres_to_duckdb` (lines 95-145), with every stage in source
order.  The final `conversions` dictionary applies `str.replace` for
`TEXT[] -> TEXT`, `MATERIALIZED -> ""` and the identity
`CURRENT_TIMESTAMP -> CURRENT_TIMESTAMP`, in insertion order. -/
def convertPostgresCore (l : List Char) : List Char :=
  let s1 := stripDashLines l
  let s2 := collapseGo false s1
  let s3 := semiNLGo false s2
  let s4 := convertSerialCore s3
  let s5 := replaceAllL ("ON DELETE SET NULL".data) [] s4
  let s6 := replaceAllL ("ON DELETE CASCADE".data) [] s5
  let s7 := replaceAllL ("ON DELETE SET DEFAULT".data) [] s6
  let s8 := replaceAllDotL ("follows int4 REFERENCES antismash.as_domains".data)
    ("follows int4".data) s7
  let s9 := replaceAllDotL
    ("as_domain_id int4 NOT NULL REFERENCES antismash.as_domains".data)
    ("as_domain_id int4 NOT NULL".data) s8
  let s10 := replaceAllL ("TEXT[]".data) ("TEXT".data) s9
  let s11 := replaceAllL ("MATERIALIZED".data) [] s10
  let s12 := replaceAllL ("CURRENT_TIMESTAMP".data) ("CURRENT_TIMESTAMP".data) s11
  s12

/-- String-level `convert_postgres_to_duckdb`. -/
def convert_postgres_to_duckdb (s : String) : String :=
  ⟨convertPostgresCore s.data⟩

/-!
## Dump-to-CSV extraction (`sql_to_csv`, lines 148-221)

The file is read as a list of physical lines.  Every use of a line in the
source (`line.startswith("COPY")`, `line.strip() == "\\."`,
`line.strip().split("\t")`) is invariant under removal of the trailing
newline, so lines are modelled without it.  The scan keeps updating
`start_index` at every `COPY` line and stops at the first line that strips
to `\.`; if the loop never breaks, `end_index` stays `0`.
-/

/-- The index scan of lines 192-199: `start` is one past the last `COPY`
line seen so far, and the result's second component is the index of the
first `\.` line (or `0` if none). -/
def findBoundsAux (i start : Nat) : List String → Nat × Nat
  | [] => (start, 0)
  | l :: rest =>
      if pyStartsWith l ("COPY") then findBoundsAux (i + 1) (i + 1) rest
      else if pyStrip l = "\\." then (start, i)
      else findBoundsAux (i + 1) start rest

/-- The slice `lines[start_index:end_index]` of line 202 (Python slice semantics:
empty whenever `end ≤ start`). -/
def copyDataLines (lines : List String) : List String :=
  (lines.drop (findBoundsAux 0 0 lines).1).take
    ((findBoundsAux 0 0 lines).2 - (findBoundsAux 0 0 lines).1)

/-- Lines 214-218, for one data line: strip it, split on tabs, and replace
each field that is exactly `\N` by the empty string. -/
def procDataLine (l : String) : List String :=
  ((pySplitGo '\t' [] (pyStripL l.data)).map
    (fun f => if f = ['\\', 'N'] then [] else f)).map String.mk

/-- The rows written by `sql_to_csv`: the supplied header row followed by
one processed row per extracted data line (lines 205-219). -/
def sqlToCsvRows (lines : List String) (headers : List String) :
    List (List String) :=
  headers :: (copyDataLines lines).map procDataLine

/-- Does a CSV field need quoting under `csv.QUOTE_MINIMAL` with delimiter
`,`, quotechar `"` and the default `\r\n` line terminator? -/
def csvNeedsQuote (f : List Char) : Bool :=
  f.any (fun c => c = ',' || c = '"' || c = '\n' || c = '\r')

/-- Render one CSV field as `csv.writer` does (minimal quoting, doubled
quote characters). -/
def csvField (f : List Char) : List Char :=
  if csvNeedsQuote f then
    '"' :: (f.foldr (fun c acc =>
      if c = '"' then '"' :: '"' :: acc else c :: acc) ['"'])
  else f

/-- Render one CSV row (without the line terminator). -/
def csvRow (r : List String) : String :=
  ⟨List.intercalate [','] (r.map (fun s => csvField s.data))⟩

/-- The text lines of the CSV file produced by `sql_to_csv`. -/
def sqlToCsvLines (lines : List String) (headers : List String) :
    List String :=
  (sqlToCsvRows lines headers).map csvRow

/-!
## The preload sequence-start scan (lines 349-361 and 383-393)

The script re-reads the CSV it just wrote and keeps the first field of the
last non-empty row (the initial value is the integer `1`, modelled as the
string `"1"`, always overwritten by the header row), then computes
`int(last) + 1`.  The read-back through `csv.reader` returns exactly the
rows written for the fields occurring here (no delimiter, quote or newline
characters), so it is modelled as the identity on the written rows.
-/

/-- Digits of a decimal literal, or `none` when empty or non-numeric. -/
def digitsToNat : List Char → Option Nat
  | [] => none
  | l =>
      if l.all Char.isDigit then
        some (l.foldl (fun acc c => acc * 10 + (c.toNat - 48)) 0)
      else none

/-- Python `int(str)`: optional surrounding whitespace, optional sign,
decimal digits; raises (here: `none`) otherwise. -/
def pyInt (s : String) : Option Int :=
  match pyStripL s.data with
  | '+' :: ds => (digitsToNat ds).map (fun n => (n : Int))
  | '-' :: ds => (digitsToNat ds).map (fun n => -(n : Int))
  | ds => (digitsToNat ds).map (fun n => (n : Int))

/-- Lines 350-354 / 383-387: fold over all CSV rows (header included),
keeping the first field of each non-empty row; starts from `"1"`. -/
def lastFirstField (rows : List (List String)) : String :=
  rows.foldl
    (fun acc row => match row with | [] => acc | f :: _ => f) "1"

/-- Lines 355-356 / 388-389: `int(last) + 1`, `none` when the conversion
raises `ValueError`. -/
def nextIdStartOfRows (rows : List (List String)) : Option Int :=
  (pyInt (lastFirstField rows)).map (fun n => n + 1)

/-- Header list for `preload_monomers.csv` (lines 345-347). -/
def monomerHeaders : List String :=
  ["monomer_id", "substrate_id", "name", "description"]

/-- Header list for `preload_taxa.csv` (lines 366-381). -/
def taxaHeaders : List String :=
  ["tax_id", "ncbi_taxid", "superkingdom", "kingdom", "phylum", "class",
   "taxonomic_order", "family", "genus", "species", "strain", "name"]

/-- The monomer sequence start computed from the `preload_monomers.sql`
dump lines (lines 342-356). -/
def monomersStartValue (dump : List String) : Option Int :=
  nextIdStartOfRows (sqlToCsvRows dump monomerHeaders)

/-- The taxa sequence start computed from the `preload_taxa.sql` dump lines
(lines 363-389). -/
def taxaStartValue (dump : List String) : Option Int :=
  nextIdStartOfRows (sqlToCsvRows dump taxaHeaders)

/-- The `monomers` override SQL f-string of lines 358-361, for a given
start value. -/
def monomersTemplate (n : Int) : String :=
  "\n    CREATE SEQUENCE antismash.antismash_monomers_monomer_id_seq START " ++
  toString n ++
  ";\n    CREATE TABLE antismash.monomers ( monomer_id INTEGER DEFAULT nextval('antismash.antismash_monomers_monomer_id_seq') NOT NULL PRIMARY KEY, substrate_id int4 NOT NULL REFERENCES antismash.substrates, name text NOT NULL, description text, CONSTRAINT monomer_name_unique UNIQUE (name) );\n    "

/-- The `taxa` override SQL f-string of lines 391-393, for a given start
value. -/
def taxaTemplate (n : Int) : String :=
  "\n    CREATE SEQUENCE antismash.antismash_taxa_tax_id_seq START " ++
  toString n ++
  ";\n    CREATE TABLE antismash.taxa ( tax_id INTEGER DEFAULT nextval('antismash.antismash_taxa_tax_id_seq') NOT NULL, ncbi_taxid int4, superkingdom text, kingdom text, phylum text, CLASS text, taxonomic_order text, family text, genus text, species text, strain text, name text NOT NULL, CONSTRAINT taxa_pkey PRIMARY KEY (tax_id), CONSTRAINT taxa_name_unique UNIQUE (name) );    "

/-- The `monomers` override blob, `none` when `int()` raises. -/
def monomersOverrideText (dump : List String) : Option String :=
  (monomersStartValue dump).map monomersTemplate

/-- The `taxa` override blob, `none` when `int()` raises. -/
def taxaOverrideText (dump : List String) : Option String :=
  (taxaStartValue dump).map taxaTemplate

/-!
## The schema materializer (`init_duckdb_schema`, lines 224-464)

Database execution is modelled by an oracle `ok : String → Bool` (does
`conn.execute(stmt)` succeed?) together with a log of the statements that
executed successfully, in order — DuckDB auto-commits each successful
statement, so the log is the committed state.  File-system inputs are the
parameters `hasFile` (is `<table>.sql` present?) and `fileText` (its
contents); `fmt` stands for the external
`sqlparse.format(..., reindent=False, keyword_case="upper")` call, whose
output feeds `convert_postgres_to_duckdb` unchanged in structure.  Writing
the audit `.sql` files and the CSV files does not affect control flow and
is not modelled.
-/

/-- The degraded retry of lines 447-457: execute the `";"`-split fragments
of the failed statement one by one; the first failing fragment aborts with
the log as committed so far (the fragments after it never run). -/
def execFragments (ok : String → Bool) :
    List String → List String → Except (List String) (List String)
  | [], log => .ok log
  | s :: rest, log =>
      if ok s then execFragments ok rest (log ++ [s]) else .error log

/-- Lines 437-457, for one statement: skip it when it strips to nothing;
execute it; on failure perform the single degraded retry; a failure of the
retry is fatal (`exit(1)`), carrying the committed log. -/
def execStatement (ok : String → Bool) (stmt : String) (log : List String) :
    Except (List String) (List String) :=
  if pyStrip stmt = "" then .ok log
  else if ok stmt then .ok (log ++ [stmt])
  else execFragments ok (pySplitSemi stmt) log

/-- The statement loop of lines 437-457 over one table's statement list. -/
def execStatements (ok : String → Bool) :
    List String → List String → Except (List String) (List String)
  | [], log => .ok log
  | s :: rest, log =>
      match execStatement ok s log with
      | .ok log2 => execStatements ok rest log2
      | .error log2 => .error log2

/-- How a run of `init_duckdb_schema` ends: normal completion, an uncaught
`ValueError` from the preload `int()` conversion, `exit(1)` on a missing
`<table>.sql` file, or `exit(1)` after the failed degraded retry. -/
inductive RunOutcome
  | completed
  | preloadError
  | missingFile (t : String)
  | execFailure
deriving DecidableEq, Repr

/-- The process exit code of each outcome (0 on success, 1 on any abort). -/
def exitCode : RunOutcome → Nat
  | .completed => 0
  | _ => 1

/-- The fixed ordered table/view list of lines 274-327. -/
def TABLES : List String :=
  ["sampling_sites", "bgc_types", "substrates", "taxa", "profiles",
   "as_domain_profiles", "pfams", "gene_ontologies", "resfams", "tigrfams",
   "bgc_rules", "samples", "isolates", "genomes", "dna_sequences",
   "regions", "candidates", "protoclusters", "functional_classes", "smcogs",
   "cdss", "genes", "ripps", "t2pks", "monomers", "modules", "as_domains",
   "clusterblast_algorithms", "clusterblast_hits", "tta_codons",
   "pfam_domains", "pfam_go_entries", "filenames", "resfam_domains", "tfbs",
   "comparippson", "tigrfam_domains", "cluster_compare_hits",
   "rel_candidates_protoclusters", "rel_candidates_types",
   "rel_candidates_modules", "rel_cds_candidates", "rel_cds_protoclusters",
   "rel_regions_types", "rel_as_domains_substrates", "smcog_hits",
   "profile_hits", "rel_modules_monomers", "view_sequence_gc_content",
   "view_sequence_lengths", "preload_taxa", "preload_monomers"]

/-- The GC-content view override blob of lines 329-339. -/
def view_sequence_gc_content_sql : String :=
  "\n    CREATE VIEW antismash.sequence_gc_content AS\n    SELECT\n        accession,\n        ROUND(100.0 * (\n            length(dna) - length(replace(dna, 'G', '')) +\n            length(dna) - length(replace(dna, 'C', ''))\n        ) / length(dna), 2) AS gc_content\n    FROM\n        antismash.dna_sequences;\n    "

/-- The `duckdb_exceptions` override map of lines 396-402, keyed by table
name (`outdirStr` renders the output directory in the two `COPY ... FROM`
paths). -/
def duckdb_exceptions (outdirStr monomersSQL taxaSQL : String)
    (t : String) : Option String :=
  if t = "view_sequence_gc_content" then some view_sequence_gc_content_sql
  else if t = "preload_taxa" then
    some ("COPY antismash.taxa FROM '" ++ outdirStr ++
      "/preload_taxa.csv' (AUTO_DETECT TRUE);")
  else if t = "preload_monomers" then
    some ("COPY antismash.monomers FROM '" ++ outdirStr ++
      "/preload_monomers.csv' (AUTO_DETECT TRUE);")
  else if t = "monomers" then some monomersSQL
  else if t = "taxa" then some taxaSQL
  else none

/-- Lines 408-426, for one table: select the override blob or the file
text, format it (`fmt`), run the dialect rewriter, and split into
statements. -/
def tableStatements (fmt : String → String) (fileText : String → String)
    (exceptions : String → Option String) (t : String) : List String :=
  let raw := match exceptions t with
             | some s => s
             | none => fileText t
  splitStatements (convert_postgres_to_duckdb (fmt raw))

/-- The main loop of lines 405-461: in list order, a missing `<t>.sql`
aborts immediately (`exit(1)`, log unchanged); otherwise the table's
statements run, and a fatal statement failure aborts with the log
committed so far. -/
def runTables (ok hasFile : String → Bool) (stmtsOf : String → List String) :
    List String → List String → RunOutcome × List String
  | [], log => (.completed, log)
  | t :: rest, log =>
      if hasFile t then
        match execStatements ok (stmtsOf t) log with
        | .ok log2 => runTables ok hasFile stmtsOf rest log2
        | .error log2 => (.execFailure, log2)
      else (.missingFile t, log)

/-- The schema-creation statement executed at lines 269-271, before the
table loop. -/
def schemaInitSQL : String :=
  "CREATE SCHEMA IF NOT EXISTS antismash;\nSET SCHEMA 'antismash';\n"

/-- Model of `init_duckdb_schema` (lines 224-464): create the schema, build the two
preload overrides (an unparseable first column raises `ValueError` before
the loop), then run the table loop; `conn.close()` (line 464) runs only
after a completed loop, so the final component records whether the
connection was closed before the process ended. -/
def init_duckdb_schema (ok hasFile : String → Bool)
    (fmt fileText : String → String) (outdirStr : String)
    (dumpMonomers dumpTaxa : List String) :
    RunOutcome × List String × Bool :=
  match monomersOverrideText dumpMonomers, taxaOverrideText dumpTaxa with
  | some mSQL, some tSQL =>
      match runTables ok hasFile
          (tableStatements fmt fileText (duckdb_exceptions outdirStr mSQL tSQL))
          TABLES [schemaInitSQL] with
      | (.completed, log) => (.completed, log, true)
      | (out, log) => (out, log, false)
  | _, _ => (.preloadError, [schemaInitSQL], false)

/-!
## Lemmas about the COPY-block scan
-/

/-- Lines that neither start with `COPY` nor strip to `\.` are skipped by
the index scan, advancing the line counter. -/
theorem findBoundsAux_skip (pre rest : List String) (i start : Nat)
    (h : ∀ l ∈ pre, pyStartsWith l ("COPY") = false ∧ pyStrip l ≠ "\\.") :
    findBoundsAux i start (pre ++ rest) =
      findBoundsAux (i + pre.length) start rest := by
  induction pre generalizing i with
  | nil => simp
  | cons l pre ih =>
      obtain ⟨h1, h2⟩ := h l (by simp)
      simp only [List.cons_append, findBoundsAux, h1, Bool.false_eq_true,
        if_false, if_neg h2, List.append_eq]
      rw [ih _ (fun l hl => h l (by simp [hl]))]
      rw [show i + 1 + pre.length = i + (l :: pre).length by simp; omega]

/-- On a well-formed single COPY block — clean lines, the `COPY` line, the
data lines, the `\.` terminator — the extracted data slice is exactly the
data lines. -/
theorem copyDataLines_block (pre : List String) (copyL : String)
    (data : List String) (term : String) (rest : List String)
    (hpre : ∀ l ∈ pre, pyStartsWith l ("COPY") = false ∧ pyStrip l ≠ "\\.")
    (hcopy : pyStartsWith copyL ("COPY") = true)
    (hdata : ∀ l ∈ data, pyStartsWith l ("COPY") = false ∧ pyStrip l ≠ "\\.")
    (hterm1 : pyStartsWith term ("COPY") = false)
    (hterm2 : pyStrip term = "\\.") :
    copyDataLines (pre ++ (copyL :: (data ++ (term :: rest)))) = data := by
  have hb : findBoundsAux 0 0 (pre ++ (copyL :: (data ++ (term :: rest)))) =
      (pre.length + 1, pre.length + 1 + data.length) := by
    rw [findBoundsAux_skip pre _ 0 0 hpre]
    simp only [findBoundsAux, hcopy, if_true]
    rw [findBoundsAux_skip data _ _ _ hdata]
    simp only [findBoundsAux, hterm1, Bool.false_eq_true, if_false,
      if_pos hterm2]
    simp only [Prod.mk.injEq]
    omega
  unfold copyDataLines
  rw [hb]
  have hdrop : (pre ++ (copyL :: (data ++ (term :: rest)))).drop
      (pre.length + 1) = data ++ (term :: rest) := by
    rw [show pre ++ (copyL :: (data ++ (term :: rest))) =
      (pre ++ [copyL]) ++ (data ++ (term :: rest)) by simp]
    rw [show pre.length + 1 = (pre ++ [copyL]).length by simp]
    exact List.drop_left _ _
  rw [hdrop]
  rw [show pre.length + 1 + data.length - (pre.length + 1) = data.length
    by omega]
  exact List.take_left _ _

/-- The first field of the last row survives a final non-empty row. -/
theorem lastFirstField_concat (rows : List (List String)) (f : String)
    (fs : List String) :
    lastFirstField (rows ++ [f :: fs]) = f := by
  unfold lastFirstField
  rw [List.foldl_append]
  rfl

/-- C6 (counterexample): the claim says each data line is split on tab
characters, but the code strips the line first, so a trailing tab (an empty
final field) is dropped: the data line `"1\tfoo\t"` yields the row
`["1", "foo"]`, not `["1", "foo", ""]`. -/
theorem c6_counterexample :
    sqlToCsvRows ["COPY antismash.monomers FROM stdin;", "1\tfoo\t", "\\."]
        ["id", "name", "note"] =
      [["id", "name", "note"], ["1", "foo"]] ∧
    sqlToCsvRows ["COPY antismash.monomers FROM stdin;", "1\tfoo\t", "\\."]
        ["id", "name", "note"] ≠
      [["id", "name", "note"], ["1", "foo", ""]] := by decide

/-- C6 (amended): for a dump containing a single COPY block, the output CSV
is the supplied header row followed by one row per data line in original
order, where each data line is first stripped of leading and trailing
whitespace and then split on tabs, with fields equal to `\N` replaced by
the empty string; the data section begins after the COPY line and ends at
the `\.` terminator. -/
theorem c6_amended (pre : List String) (copyL : String) (data : List String)
    (term : String) (rest : List String) (headers : List String)
    (hpre : ∀ l ∈ pre, pyStartsWith l ("COPY") = false ∧ pyStrip l ≠ "\\.")
    (hcopy : pyStartsWith copyL ("COPY") = true)
    (hdata : ∀ l ∈ data, pyStartsWith l ("COPY") = false ∧ pyStrip l ≠ "\\.")
    (hterm1 : pyStartsWith term ("COPY") = false)
    (hterm2 : pyStrip term = "\\.") :
    sqlToCsvRows (pre ++ (copyL :: (data ++ (term :: rest)))) headers =
      headers :: data.map procDataLine ∧
    sqlToCsvLines (pre ++ (copyL :: (data ++ (term :: rest)))) headers =
      csvRow headers :: data.map (fun l => csvRow (procDataLine l)) := by
  have h := copyDataLines_block pre copyL data term rest hpre hcopy hdata
    hterm1 hterm2
  constructor
  · unfold sqlToCsvRows
    rw [h]
  · unfold sqlToCsvLines sqlToCsvRows
    rw [h]
    simp [List.map_map, Function.comp]

/-- Witness for C6 (amended), at the spec's own example: headers
`["id","name","note"]`, data lines `"1\tfoo\t\N"` and `"2\tbar\tbaz"`. -/
theorem c6_amended_witness :
    (pyStartsWith ("COPY antismash.monomers FROM stdin;") ("COPY") = true ∧
     (∀ l ∈ ["1\tfoo\t\\N", "2\tbar\tbaz"],
        pyStartsWith l ("COPY") = false ∧ pyStrip l ≠ "\\.") ∧
     pyStartsWith ("\\.") ("COPY") = false ∧ pyStrip ("\\.") = "\\.") ∧
    sqlToCsvRows
        (([] : List String) ++ ("COPY antismash.monomers FROM stdin;" ::
          (["1\tfoo\t\\N", "2\tbar\tbaz"] ++ ("\\." :: ([] : List String)))))
        ["id", "name", "note"] =
      ["id", "name", "note"] ::
        (["1\tfoo\t\\N", "2\tbar\tbaz"] : List String).map procDataLine := by
  refine ⟨⟨by decide, by decide, by decide, by decide⟩, ?_⟩
  exact (c6_amended [] "COPY antismash.monomers FROM stdin;"
    ["1\tfoo\t\\N", "2\tbar\tbaz"] "\\." [] ["id", "name", "note"]
    (by decide) (by decide) (by decide) (by decide) (by decide)).1

/-- The spec's C6 example, rendered: nulls become empty fields and rows are
comma-joined with minimal quoting. -/
theorem sql_to_csv_render_example :
    sqlToCsvLines ["COPY antismash.monomers FROM stdin;", "1\tfoo\t\\N",
        "2\tbar\tbaz", "\\."] ["id", "name", "note"] =
      ["id,name,note", "1,foo,", "2,bar,baz"] := by decide

/-- C8 (counterexample): a file with no COPY line but with a `\.` line at
index 1 emits `lines[0:1]` as a data row, so the output is not only the
header row. -/
theorem c8_counterexample :
    sqlToCsvRows ["a\tb", "\\."] ["h1", "h2"] = [["h1", "h2"], ["a", "b"]] ∧
    sqlToCsvRows ["a\tb", "\\."] ["h1", "h2"] ≠ [["h1", "h2"]] := by decide

/-- C8 (amended): if the dump contains no line starting with COPY and also
no line stripping to `\.`, the output CSV contains only the header row.
(When a `\.` line is present at index `k > 0` without a preceding COPY
line, the first `k` lines are emitted as data rows instead.) -/
theorem c8_amended (lines : List String) (headers : List String)
    (h : ∀ l ∈ lines, pyStartsWith l ("COPY") = false ∧ pyStrip l ≠ "\\.") :
    sqlToCsvRows lines headers = [headers] := by
  have hb : findBoundsAux 0 0 lines = (0, 0) := by
    rw [show lines = lines ++ [] by simp]
    rw [findBoundsAux_skip lines [] 0 0 h]
    rfl
  unfold sqlToCsvRows copyDataLines
  rw [hb]
  simp

/-- Witness for C8 (amended): an ordinary dump prefix with neither a COPY
line nor a terminator yields only the header row. -/
theorem c8_amended_witness :
    (∀ l ∈ ["SET statement_timeout = 0;", "SELECT 1;"],
        pyStartsWith l ("COPY") = false ∧ pyStrip l ≠ "\\.") ∧
    sqlToCsvRows ["SET statement_timeout = 0;", "SELECT 1;"]
        ["h1", "h2"] = [["h1", "h2"]] := by
  refine ⟨by decide, ?_⟩
  exact c8_amended ["SET statement_timeout = 0;", "SELECT 1;"] ["h1", "h2"]
    (by decide)

/-- Modelled from the spec ("the maximum value present in the leading
(first) column of the generated preload CSV"): the maximum of the parseable
first fields over the CSV's data rows (header excluded). -/
def maxFirstFieldSpec (rows : List (List String)) : Option Int :=
  ((rows.drop 1).filterMap (fun r => r.head? >>= pyInt)).foldl
    (fun acc n =>
      match acc with
      | none => some n
      | some m => some (max m n)) none

/-- C1 (counterexample): a preload dump whose COPY data lines are `42 ...`
followed by `7 ...` has maximum first-column value 42, but the code keeps
the first field of the *last* row and emits `START 8`, not `START 43`. -/
theorem c1_counterexample :
    maxFirstFieldSpec (sqlToCsvRows
        ["COPY antismash.monomers (monomer_id, substrate_id, name, description) FROM stdin;",
         "42\t1\talpha\tfirst", "7\t1\tbeta\tsecond", "\\."]
        monomerHeaders) = some 42 ∧
    monomersStartValue
        ["COPY antismash.monomers (monomer_id, substrate_id, name, description) FROM stdin;",
         "42\t1\talpha\tfirst", "7\t1\tbeta\tsecond", "\\."] = some 8 ∧
    occursB (("START 8").data)
        ((monomersOverrideText
          ["COPY antismash.monomers (monomer_id, substrate_id, name, description) FROM stdin;",
           "42\t1\talpha\tfirst", "7\t1\tbeta\tsecond", "\\."]).getD ("")).data
      = true ∧
    occursB (("START 43").data)
        ((monomersOverrideText
          ["COPY antismash.monomers (monomer_id, substrate_id, name, description) FROM stdin;",
           "42\t1\talpha\tfirst", "7\t1\tbeta\tsecond", "\\."]).getD ("")).data
      = false := by decide

/-- C1 (amended): for each preload dataset (taxa and monomers), the start
value of the generated identity CREATE SEQUENCE equals the first-column
value of the *last* data row of the generated preload CSV plus one — which
equals max + 1 exactly when the last row carries the maximum, e.g. when the
dump's ids are in ascending order. -/
theorem c1_amended (pre : List String) (copyL : String) (d0 : List String)
    (dl : String) (term : String) (rest : List String) (f : String)
    (fs : List String) (n : Int)
    (hpre : ∀ l ∈ pre, pyStartsWith l ("COPY") = false ∧ pyStrip l ≠ "\\.")
    (hcopy : pyStartsWith copyL ("COPY") = true)
    (hdata : ∀ l ∈ d0 ++ [dl], pyStartsWith l ("COPY") = false ∧
      pyStrip l ≠ "\\.")
    (hterm1 : pyStartsWith term ("COPY") = false)
    (hterm2 : pyStrip term = "\\.")
    (hproc : procDataLine dl = f :: fs)
    (hn : pyInt f = some n) :
    monomersStartValue (pre ++ (copyL :: ((d0 ++ [dl]) ++ (term :: rest)))) =
      some (n + 1) ∧
    taxaStartValue (pre ++ (copyL :: ((d0 ++ [dl]) ++ (term :: rest)))) =
      some (n + 1) := by
  have h := copyDataLines_block pre copyL (d0 ++ [dl]) term rest hpre hcopy
    hdata hterm1 hterm2
  have hlast : ∀ headers : List String,
      lastFirstField (sqlToCsvRows
        (pre ++ (copyL :: ((d0 ++ [dl]) ++ (term :: rest)))) headers) = f := by
    intro headers
    unfold sqlToCsvRows
    rw [h, List.map_append]
    rw [show headers :: (d0.map procDataLine ++ [dl].map procDataLine) =
      (headers :: d0.map procDataLine) ++ [procDataLine dl] by simp]
    rw [hproc]
    exact lastFirstField_concat _ _ _
  constructor
  · unfold monomersStartValue nextIdStartOfRows
    rw [hlast monomerHeaders, hn]
    rfl
  · unfold taxaStartValue nextIdStartOfRows
    rw [hlast taxaHeaders, hn]
    rfl

/-- Witness for C1 (amended): data rows `41 ...` then `42 ...` (ascending,
last row is the maximum) give start value 43 for both datasets. -/
theorem c1_amended_witness :
    (procDataLine ("42\t2\tglycine\tsecond") =
      "42" :: ["2", "glycine", "second"] ∧ pyInt ("42") = some 42) ∧
    monomersStartValue
        (([] : List String) ++
          ("COPY antismash.monomers (monomer_id, substrate_id, name, description) FROM stdin;" ::
            ((["41\t1\talanine\tfirst"] ++ ["42\t2\tglycine\tsecond"]) ++
              ("\\." :: ([] : List String))))) = some (42 + 1) := by
  refine ⟨⟨by decide, by decide⟩, ?_⟩
  exact (c1_amended [] "COPY antismash.monomers (monomer_id, substrate_id, name, description) FROM stdin;"
    ["41\t1\talanine\tfirst"] "42\t2\tglycine\tsecond" "\\." [] "42"
    ["2", "glycine", "second"] 42 (by decide) (by decide) (by decide)
    (by decide) (by decide) (by decide) (by decide)).1

/-- C10: the sequence-start scan folds over every CSV row including the
header, keeping the first field of the last non-empty row; with an empty
COPY data section the header row is the last row, so `int()` receives the
header name `monomer_id` and raises, aborting the build before any table is
processed (no `START 2` sequence is ever created). -/
theorem c10_theorem (pre : List String) (copyL : String) (term : String)
    (rest : List String)
    (hpre : ∀ l ∈ pre, pyStartsWith l ("COPY") = false ∧ pyStrip l ≠ "\\.")
    (hcopy : pyStartsWith copyL ("COPY") = true)
    (hterm1 : pyStartsWith term ("COPY") = false)
    (hterm2 : pyStrip term = "\\.") :
    lastFirstField (sqlToCsvRows (pre ++ (copyL :: (term :: rest)))
        monomerHeaders) = "monomer_id" ∧
    monomersStartValue (pre ++ (copyL :: (term :: rest))) = none ∧
    ∀ (ok hasFile : String → Bool) (fmt fileText : String → String)
      (outdirStr : String) (dumpTaxa : List String),
      init_duckdb_schema ok hasFile fmt fileText outdirStr
          (pre ++ (copyL :: (term :: rest))) dumpTaxa =
        (.preloadError, [schemaInitSQL], false) := by
  have h := copyDataLines_block pre copyL [] term rest hpre hcopy
    (by simp) hterm1 hterm2
  simp only [List.nil_append] at h
  have hrows : sqlToCsvRows (pre ++ (copyL :: (term :: rest)))
      monomerHeaders = [monomerHeaders] := by
    unfold sqlToCsvRows
    rw [h]
    rfl
  have hlast : lastFirstField (sqlToCsvRows (pre ++ (copyL :: (term :: rest)))
      monomerHeaders) = "monomer_id" := by
    rw [hrows]
    rfl
  have hstart : monomersStartValue (pre ++ (copyL :: (term :: rest))) = none := by
    unfold monomersStartValue nextIdStartOfRows
    rw [hlast]
    rfl
  refine ⟨hlast, hstart, ?_⟩
  intro ok hasFile fmt fileText outdirStr dumpTaxa
  unfold init_duckdb_schema
  rw [show monomersOverrideText (pre ++ (copyL :: (term :: rest))) = none by
    unfold monomersOverrideText; rw [hstart]; rfl]

/-- Witness for C10: the minimal empty-data preload dump. -/
theorem c10_witness :
    (pyStartsWith ("COPY antismash.monomers (monomer_id, substrate_id, name, description) FROM stdin;") ("COPY") = true ∧
     pyStartsWith ("\\.") ("COPY") = false ∧ pyStrip ("\\.") = "\\.") ∧
    monomersStartValue
        (([] : List String) ++
          ("COPY antismash.monomers (monomer_id, substrate_id, name, description) FROM stdin;" ::
            ("\\." :: ([] : List String)))) = none := by
  refine ⟨⟨by decide, by decide, by decide⟩, ?_⟩
  exact (c10_theorem []
    "COPY antismash.monomers (monomer_id, substrate_id, name, description) FROM stdin;"
    "\\." [] (by decide) (by decide) (by decide) (by decide)).2.1

/-!
## Lemmas about the execution loop
-/

/-- If every fragment succeeds, the degraded retry commits them all. -/
theorem execFragments_all_ok (ok : String → Bool) (frags log : List String)
    (h : ∀ f ∈ frags, ok f = true) :
    execFragments ok frags log = .ok (log ++ frags) := by
  induction frags generalizing log with
  | nil => simp [execFragments]
  | cons s rest ih =>
      have hs := h s (by simp)
      simp only [execFragments, hs, if_true]
      rw [ih _ (fun f hf => h f (by simp [hf]))]
      simp

/-- If the fragments are some succeeding ones followed by a failing one,
the degraded retry aborts with exactly the succeeding ones committed. -/
theorem execFragments_fail (ok : String → Bool) (a : List String) (b : String)
    (c log : List String) (ha : ∀ f ∈ a, ok f = true) (hb : ok b = false) :
    execFragments ok (a ++ b :: c) log = .error (log ++ a) := by
  induction a generalizing log with
  | nil => simp [execFragments, hb]
  | cons s rest ih =>
      have hs := ha s (by simp)
      simp only [List.cons_append, execFragments, hs, if_true, List.append_eq]
      rw [ih _ (fun f hf => ha f (by simp [hf]))]
      simp

/-- The table loop distributes over list append: a completed run over the
first part continues with its log; a fatal result short-circuits. -/
theorem runTables_append (ok hasFile : String → Bool)
    (stmtsOf : String → List String) (xs ys log : List String) :
    runTables ok hasFile stmtsOf (xs ++ ys) log =
      match runTables ok hasFile stmtsOf xs log with
      | (.completed, log2) => runTables ok hasFile stmtsOf ys log2
      | r => r := by
  induction xs generalizing log with
  | nil => simp [runTables]
  | cons t rest ih =>
      simp only [List.cons_append, runTables]
      by_cases h : hasFile t = true
      · simp only [h, if_true]
        cases hex : execStatements ok (stmtsOf t) log with
        | ok log2 => exact ih log2
        | error log2 => rfl
      · simp only [Bool.not_eq_true] at h
        simp [h]

/-- C4: a statement failure triggers exactly one degraded retry, which
splits the failing statement on `;` and executes the fragments individually
in order; if the retry hits a failing fragment, the run aborts immediately
(skipping the remaining statements and tables) with exit code 1, with no
rollback: the previously committed log persists, extended by the fragments
that succeeded before the failing one. -/
theorem c4_theorem (ok : String → Bool) (stmt : String) (log : List String)
    (hne : pyStrip stmt ≠ "") (hfail : ok stmt = false) :
    (execStatement ok stmt log = execFragments ok (pySplitSemi stmt) log) ∧
    ((∀ f ∈ pySplitSemi stmt, ok f = true) →
      execStatement ok stmt log = .ok (log ++ pySplitSemi stmt)) ∧
    (∀ (a : List String) (b : String) (c : List String),
      pySplitSemi stmt = a ++ b :: c → (∀ f ∈ a, ok f = true) →
      ok b = false →
      execStatement ok stmt log = .error (log ++ a) ∧
      (∀ restStmts : List String,
        execStatements ok (stmt :: restStmts) log = .error (log ++ a)) ∧
      (∀ (hasFile : String → Bool) (stmtsOf : String → List String)
          (t : String) (restStmts : List String) (tbls : List String),
        hasFile t = true → stmtsOf t = stmt :: restStmts →
        runTables ok hasFile stmtsOf (t :: tbls) log =
          (.execFailure, log ++ a)) ∧
      exitCode RunOutcome.execFailure = 1) := by
  have hbase : execStatement ok stmt log =
      execFragments ok (pySplitSemi stmt) log := by
    simp [execStatement, hne, hfail]
  refine ⟨hbase, ?_, ?_⟩
  · intro hall
    rw [hbase]
    exact execFragments_all_ok ok _ log hall
  · intro a b c hsplit ha hb
    have herr : execStatement ok stmt log = .error (log ++ a) := by
      rw [hbase, hsplit]
      exact execFragments_fail ok a b c log ha hb
    have herr2 : ∀ restStmts : List String,
        execStatements ok (stmt :: restStmts) log = .error (log ++ a) := by
      intro restStmts
      simp [execStatements, herr]
    refine ⟨herr, herr2, ?_, rfl⟩
    intro hasFile stmtsOf t restStmts tbls hhf hso
    simp [runTables, hhf, hso, herr2 restStmts]

/-- Witness for C4: the statement `GOOD;BAD` fails as a whole, its first
fragment `GOOD` commits, its second fragment `BAD` fails, and the run
aborts with the committed log `["prior", "GOOD"]`. -/
theorem c4_witness :
    (pyStrip ("GOOD;BAD") ≠ "" ∧ (fun s => s == "GOOD") "GOOD;BAD" = false ∧
     pySplitSemi ("GOOD;BAD") = ["GOOD"] ++ "BAD" :: [] ∧
     (∀ f ∈ ["GOOD"], (fun s => s == "GOOD") f = true) ∧
     (fun s => s == "GOOD") "BAD" = false) ∧
    execStatement (fun s => s == "GOOD") ("GOOD;BAD") ["prior"] =
      .error (["prior"] ++ ["GOOD"]) := by
  refine ⟨⟨by decide, by decide, by decide, by decide, by decide⟩, ?_⟩
  exact ((c4_theorem (fun s => s == "GOOD") ("GOOD;BAD") ["prior"] (by decide)
    (by decide)).2.2 ["GOOD"] "BAD" [] (by decide) (by decide) (by decide)).1

/-- A well-formed monomers preload dump used by concrete run instances:
its last data row has first field `5`, so its sequence starts at 6. -/
def sampleMonomersDump : List String :=
  ["COPY antismash.monomers (monomer_id, substrate_id, name, description) FROM stdin;",
   "5\t1\talanine\tdesc", "\\."]

/-- A well-formed taxa preload dump used by concrete run instances: its
last data row has first field `3`, so its sequence starts at 4. -/
def sampleTaxaDump : List String :=
  ["COPY antismash.taxa (tax_id, ncbi_taxid, superkingdom) FROM stdin;",
   "3\t2\tBacteria", "\\."]

/-- C9: for every name in the fixed table list — override entries included,
since the file-existence check precedes the override lookup — a missing
`<name>.sql` aborts the run with exit code 1, after the earlier tables have
been processed, whose committed statements remain. -/
theorem c9_theorem (ok hasFile : String → Bool)
    (fmt fileText : String → String) (outdirStr : String)
    (dumpM dumpT : List String) (mSQL tSQL : String) (pre : List String)
    (t : String) (post : List String) (L : List String)
    (hm : monomersOverrideText dumpM = some mSQL)
    (ht : taxaOverrideText dumpT = some tSQL)
    (hsplit : TABLES = pre ++ t :: post)
    (hmiss : hasFile t = false)
    (hpre : runTables ok hasFile
        (tableStatements fmt fileText (duckdb_exceptions outdirStr mSQL tSQL))
        pre [schemaInitSQL] = (.completed, L)) :
    init_duckdb_schema ok hasFile fmt fileText outdirStr dumpM dumpT =
      (.missingFile t, L, false) ∧
    exitCode (RunOutcome.missingFile t) = 1 := by
  have h1 : init_duckdb_schema ok hasFile fmt fileText outdirStr dumpM dumpT =
      match runTables ok hasFile
          (tableStatements fmt fileText
            (duckdb_exceptions outdirStr mSQL tSQL)) TABLES [schemaInitSQL] with
      | (.completed, log) => (.completed, log, true)
      | (out, log) => (out, log, false) := by
    unfold init_duckdb_schema
    rw [hm, ht]
  have h2 : runTables ok hasFile
      (tableStatements fmt fileText (duckdb_exceptions outdirStr mSQL tSQL))
      TABLES [schemaInitSQL] = (.missingFile t, L) := by
    rw [hsplit, runTables_append, hpre]
    simp [runTables, hmiss]
  rw [h1, h2]
  exact ⟨rfl, rfl⟩

/-- Witness for C9: the first three tables have files and empty contents;
`taxa.sql` — an override-map entry — is absent, and the run aborts with only
the schema-creation statement committed. -/
theorem c9_witness :
    (monomersOverrideText sampleMonomersDump = some (monomersTemplate 6) ∧
     taxaOverrideText sampleTaxaDump = some (taxaTemplate 4) ∧
     TABLES = ["sampling_sites", "bgc_types", "substrates"] ++
       "taxa" :: TABLES.drop 4 ∧
     (fun s => s == "sampling_sites" || s == "bgc_types" ||
       s == "substrates") "taxa" = false) ∧
    init_duckdb_schema (fun _ => true)
        (fun s => s == "sampling_sites" || s == "bgc_types" ||
          s == "substrates") id (fun _ => "") "out" sampleMonomersDump
        sampleTaxaDump =
      (.missingFile ("taxa"), [schemaInitSQL], false) := by
  refine ⟨⟨by decide, by decide, by decide, by decide⟩, ?_⟩
  exact (c9_theorem (fun _ => true)
    (fun s => s == "sampling_sites" || s == "bgc_types" || s == "substrates")
    id (fun _ => "") "out" sampleMonomersDump sampleTaxaDump
    (monomersTemplate 6) (taxaTemplate 4)
    ["sampling_sites", "bgc_types", "substrates"] "taxa" (TABLES.drop 4)
    [schemaInitSQL] (by decide) (by decide) (by decide) (by decide)
    (by decide)).1

/-- C5 (counterexample): a run that aborts on the very first missing file
terminates (exit code 1) with the connection still open — `exit(1)` is
called without `conn.close()`, which only runs after a completed loop. -/
theorem c5_counterexample :
    (init_duckdb_schema (fun _ => true) (fun _ => false) id (fun _ => "")
        "out" sampleMonomersDump sampleTaxaDump).2.2 = false ∧
    exitCode (init_duckdb_schema (fun _ => true) (fun _ => false) id
        (fun _ => "") "out" sampleMonomersDump sampleTaxaDump).1 = 1 ∧
    init_duckdb_schema (fun _ => true) (fun _ => false) id (fun _ => "")
        "out" sampleMonomersDump sampleTaxaDump =
      (.missingFile ("sampling_sites"), [schemaInitSQL], false) := by decide

/-- C5 (amended): the connection is closed exactly on the normal-completion
exit path; on every fatal abort (preload conversion error, missing input
file, statement execution failure after the fallback) the process ends with
the connection still open. -/
theorem c5_amended (ok hasFile : String → Bool)
    (fmt fileText : String → String) (outdirStr : String)
    (dumpM dumpT : List String) :
    (init_duckdb_schema ok hasFile fmt fileText outdirStr dumpM dumpT).2.2 =
        true ↔
      (init_duckdb_schema ok hasFile fmt fileText outdirStr dumpM dumpT).1 =
        RunOutcome.completed := by
  unfold init_duckdb_schema
  cases hm : monomersOverrideText dumpM with
  | none => simp
  | some mSQL =>
      cases ht : taxaOverrideText dumpT with
      | none => simp
      | some tSQL =>
          rcases hr : runTables ok hasFile (tableStatements fmt fileText
              (duckdb_exceptions outdirStr mSQL tSQL)) TABLES [schemaInitSQL]
            with ⟨out, log⟩
          cases out <;> simp [hr]

/-!
## Lemmas about the statement splitter
-/

/-- Pure lexer run (ignoring statement accumulation). -/
def lexRun (lx : LexSt) (l : List Char) : LexSt :=
  l.foldl lexStep lx

/-- Does any character of `l` close a statement when scanned from `lx`?
(i.e. is some semicolon of `l` at top level). -/
def anyClose (lx : LexSt) : List Char → Bool
  | [] => false
  | c :: rest => closesHere lx c || anyClose (lexStep lx c) rest

/-- The splitter over an append runs the parts in sequence. -/
theorem spRun_append (st : SpState) (X Y : List Char) :
    spRun st (X ++ Y) = spRun (spRun st X) Y := by
  simp [spRun]

/-- A chunk with no top-level semicolon is appended verbatim to the current
statement, evolving only the lexer state. -/
theorem spRun_of_no_close (lx : LexSt) (A : List Char)
    (h : anyClose lx A = false) :
    ∀ acc done, spRun ⟨lx, acc, done⟩ A = ⟨lexRun lx A, acc ++ A, done⟩ := by
  induction A generalizing lx with
  | nil => intro acc done; simp [spRun, lexRun]
  | cons c rest ih =>
      intro acc done
      rw [anyClose] at h
      rw [Bool.or_eq_false_iff] at h
      have h1 := h.1
      have h2 := h.2
      show spRun (spStep ⟨lx, acc, done⟩ c) rest = _
      rw [show spStep ⟨lx, acc, done⟩ c = ⟨lexStep lx c, acc ++ [c], done⟩ by
        unfold spStep; rw [if_neg]; simp [h1]]
      rw [ih (lexStep lx c) h2 (acc ++ [c]) done]
      simp [lexRun]

/-- Dropping leading whitespace commutes with a final semicolon. -/
theorem dropWhile_ws_append_semi (X : List Char) :
    (X ++ [';']).dropWhile pySpace = X.dropWhile pySpace ++ [';'] := by
  induction X with
  | nil => rfl
  | cons c rest ih =>
      by_cases h : pySpace c = true
      · simp [List.dropWhile, h, ih]
      · simp only [Bool.not_eq_true] at h
        simp [List.dropWhile, h]

/-- Stripping a statement that ends in a semicolon only removes its leading
whitespace. -/
theorem pyStripL_semi (X : List Char) :
    pyStripL (X ++ [';']) = X.dropWhile pySpace ++ [';'] := by
  unfold pyStripL
  rw [dropWhile_ws_append_semi]
  rw [List.reverse_append]
  rw [show ([';'] : List Char).reverse = [';'] from rfl]
  rw [show ((([';'] : List Char) ++
      (X.dropWhile pySpace).reverse).dropWhile pySpace) =
      [';'] ++ (X.dropWhile pySpace).reverse by
    simp [List.dropWhile, pySpace]]
  simp

/-- C7 (counterexample): the split of `"A; B; C;"` keeps the terminating
semicolon inside each statement — `sqlparse` statements include their
punctuation — so the result is not the bare `[A, B, C]`. -/
theorem c7_counterexample :
    splitStatements ("SELECT 1; SELECT 2; SELECT 3;") =
      ["SELECT 1;", "SELECT 2;", "SELECT 3;"] ∧
    splitStatements ("SELECT 1; SELECT 2; SELECT 3;") ≠
      ["SELECT 1", "SELECT 2", "SELECT 3"] := by decide

/-- C7 (amended): splitting `"A; B; C;"` — where `A`, `B`, `C` are
lexer-neutral (they leave the lexer at top level and contain no top-level
semicolon, though they may contain semicolons inside string literals,
quoted identifiers or comments) and are non-blank — yields exactly the
ordered sequence `[A;, B;, C;]`: each statement is trimmed of leading
whitespace and retains its terminating semicolon; trailing empty
statements and bare `";"` statements are discarded; a semicolon inside a
string literal, quoted identifier, or comment never ends a statement. -/
theorem c7_amended (A B C : List Char)
    (hA1 : anyClose .top A = false) (hA2 : lexRun .top A = .top)
    (hB1 : anyClose .top B = false) (hB2 : lexRun .top B = .top)
    (hC1 : anyClose .top C = false) (hC2 : lexRun .top C = .top)
    (hA3 : A.dropWhile pySpace ≠ []) (hB3 : B.dropWhile pySpace ≠ [])
    (hC3 : C.dropWhile pySpace ≠ []) :
    splitStatementsCore
        (A ++ ([';', ' '] ++ (B ++ ([';', ' '] ++ (C ++ [';']))))) =
      [A.dropWhile pySpace ++ [';'], B.dropWhile pySpace ++ [';'],
       C.dropWhile pySpace ++ [';']] := by
  have hsemi : ∀ st : SpState, spRun st [';', ' '] =
      spStep (spStep st ';') ' ' := fun _ => rfl
  have hrun : spRun ⟨.top, [], []⟩
      (A ++ ([';', ' '] ++ (B ++ ([';', ' '] ++ (C ++ [';']))))) =
      ⟨.top, [],
        [A ++ [';'], (' ' :: B) ++ [';'], (' ' :: C) ++ [';']]⟩ := by
    rw [spRun_append, spRun_of_no_close .top A hA1 [] [], hA2,
      List.nil_append]
    rw [spRun_append, hsemi]
    rw [show spStep (spStep ⟨.top, A, []⟩ ';') ' ' =
      ⟨.top, [' '], [A ++ [';']]⟩ from rfl]
    rw [spRun_append, spRun_of_no_close .top B hB1 [' '] [A ++ [';']], hB2]
    rw [spRun_append, hsemi]
    rw [show spStep (spStep ⟨.top, [' '] ++ B, [A ++ [';']]⟩ ';') ' ' =
      ⟨.top, [' '], [A ++ [';'], ([' '] ++ B) ++ [';']]⟩ from rfl]
    rw [spRun_append, spRun_of_no_close .top C hC1 [' ']
      [A ++ [';'], ([' '] ++ B) ++ [';']], hC2]
    rw [show spRun ⟨.top, [' '] ++ C, [A ++ [';'], ([' '] ++ B) ++ [';']]⟩
        [';'] = spStep ⟨.top, [' '] ++ C,
          [A ++ [';'], ([' '] ++ B) ++ [';']]⟩ ';' from rfl]
    rfl
  unfold splitStatementsCore parsedStatements rawStatements
  rw [hrun]
  simp only [if_true, List.append_nil, List.map_cons, List.map_nil]
  rw [pyStripL_semi A]
  rw [show (' ' :: B) ++ [';'] = (' ' :: B) ++ [';'] from rfl, pyStripL_semi]
  rw [pyStripL_semi (' ' :: C)]
  rw [show (' ' :: B).dropWhile pySpace = B.dropWhile pySpace by
    simp [List.dropWhile, pySpace]]
  rw [show (' ' :: C).dropWhile pySpace = C.dropWhile pySpace by
    simp [List.dropWhile, pySpace]]
  have hne : ∀ X : List Char, X.dropWhile pySpace ≠ [] →
      (X.dropWhile pySpace ++ [';'] ≠ ([] : List Char) ∧
       X.dropWhile pySpace ++ [';'] ≠ [';']) := by
    intro X hX
    constructor
    · simp
    · intro hcontr
      have := congrArg List.length hcontr
      simp at this
      exact hX (List.dropWhile_eq_nil_iff.mpr this)
  obtain ⟨hA4, hA5⟩ := hne A hA3
  obtain ⟨hB4, hB5⟩ := hne B hB3
  obtain ⟨hC4, hC5⟩ := hne C hC3
  simp [List.filter, hA4, hA5, hB4, hB5, hC4, hC5]

/-- Witness for C7 (amended): three statements, the first holding a
semicolon inside a string literal that is not treated as a boundary. -/
theorem c7_amended_witness :
    (anyClose .top (("INSERT INTO t VALUES ('a;b')").data) = false ∧
     lexRun .top (("INSERT INTO t VALUES ('a;b')").data) = .top ∧
     anyClose .top (("UPDATE x SET y = 2").data) = false ∧
     lexRun .top (("UPDATE x SET y = 2").data) = .top ∧
     anyClose .top (("DELETE FROM z").data) = false ∧
     lexRun .top (("DELETE FROM z").data) = .top) ∧
    splitStatementsCore
        ((("INSERT INTO t VALUES ('a;b')").data) ++
          ([';', ' '] ++ ((("UPDATE x SET y = 2").data) ++
            ([';', ' '] ++ ((("DELETE FROM z").data) ++ [';']))))) =
      [(("INSERT INTO t VALUES ('a;b')").data).dropWhile pySpace ++ [';'],
       (("UPDATE x SET y = 2").data).dropWhile pySpace ++ [';'],
       (("DELETE FROM z").data).dropWhile pySpace ++ [';']] := by
  refine ⟨⟨by decide, by decide, by decide, by decide, by decide, by decide⟩,
    ?_⟩
  exact c7_amended (("INSERT INTO t VALUES ('a;b')").data)
    (("UPDATE x SET y = 2").data) (("DELETE FROM z").data) (by decide)
    (by decide) (by decide) (by decide) (by decide) (by decide) (by decide)
    (by decide) (by decide)

/-!
## Claims about the serial rewriter
-/

/-- Count the non-overlapping occurrences of the literal `pat`, scanning
left to right (fuel-bounded, `l.length` fuel suffices). -/
def countOccurFuel (pat : List Char) : Nat → List Char → Nat
  | _, [] => 0
  | 0, _ => 0
  | fuel + 1, c :: rest =>
      if pat ≠ [] && startsWithL pat (c :: rest) then
        1 + countOccurFuel pat fuel ((c :: rest).drop pat.length)
      else countOccurFuel pat fuel rest

/-- Wrapper choosing sufficient fuel. -/
def countOccur (pat l : List Char) : Nat :=
  countOccurFuel pat l.length l

/-- The blob refuting the distinctness and zero-`serial` parts of C2: the
tables `x.a` (serial column `b_c`) and `x.a_b` (serial column `c`) both
yield the sequence name `x_a_b_c_seq`, and the string literal `'serial'`
survives rewriting. -/
def c2Blob : String :=
  "CREATE TABLE x.a ( b_c serial, note text DEFAULT 'serial' );\nCREATE TABLE x.a_b ( c serial );"

/-- C2 (counterexample): the rewriter emits the same `CREATE SEQUENCE`
name twice for different tables (underscore-joining `schema.table` with the
column is ambiguous), and the word `serial` still occurs in the output
(inside a string literal), refuting pairwise distinctness and the
zero-`serial` property. -/
theorem c2_counterexample :
    countOccur (("CREATE SEQUENCE antismash.x_a_b_c_seq START 1;").data)
        ((convert_serial_to_sequence c2Blob).data) = 2 ∧
    occursB (("serial").data) ((convert_serial_to_sequence c2Blob).data) =
      true := by decide

/-- The column-to-sequence-declaration map of one table is injective in the
column name. -/
theorem sequenceDeclaration_injective (tableName : List Char) :
    Function.Injective (sequenceDeclaration tableName) := by
  intro x y h
  simp only [sequenceDeclaration, sequenceName, List.append_assoc] at h
  have h1 := List.append_cancel_left h
  have h2 := List.append_cancel_left h1
  have h3 := List.append_cancel_left h2
  exact List.append_cancel_right h3

/-- C2 (amended): per parsed statement, a statement without `CREATE TABLE`,
without a `schema.table` name match, or without any `<word> <ws> serial`
match passes through unchanged; a matching statement becomes exactly the
newline-joined `CREATE SEQUENCE antismash.<schema>_<table>_<col>_seq START
1;` declarations — one per serial-column match, so exactly N of them —
followed by the statement with each matched column rewritten in turn to
`<col> INTEGER DEFAULT nextval('antismash.<seq>')`; the sequence names are
pairwise distinct exactly when the matched column names are distinct (they
can collide across tables). -/
theorem c2_amended (stmt : List Char) :
    (occursB (("CREATE TABLE").data) stmt = false →
      processSerialStmt stmt = stmt) ∧
    (searchCreateTable stmt = none → processSerialStmt stmt = stmt) ∧
    (findallSerial stmt = [] → processSerialStmt stmt = stmt) ∧
    (∀ name : List Char, occursB (("CREATE TABLE").data) stmt = true →
      searchCreateTable stmt = some name → findallSerial stmt ≠ [] →
      processSerialStmt stmt =
        List.intercalate ['\n']
          ((findallSerial stmt).map
            (sequenceDeclaration (name.map fun c => if c = '.' then '_' else c))) ++
          '\n' :: (findallSerial stmt).foldl
            (fun st col => subFirstColSerial col
              (columnDeclaration
                (name.map fun c => if c = '.' then '_' else c) col) st)
            stmt ∧
      ((findallSerial stmt).map
          (sequenceDeclaration (name.map fun c => if c = '.' then '_' else c))).length =
        (findallSerial stmt).length ∧
      (((findallSerial stmt).map
          (sequenceDeclaration (name.map fun c => if c = '.' then '_' else c))).Nodup ↔
        (findallSerial stmt).Nodup)) := by
  refine ⟨?_, ?_, ?_, ?_⟩
  · intro h
    simp [processSerialStmt, h]
  · intro h
    by_cases ho : occursB (("CREATE TABLE").data) stmt = true
    · simp [processSerialStmt, ho, h]
    · simp only [Bool.not_eq_true] at ho
      simp [processSerialStmt, ho]
  · intro h
    by_cases ho : occursB (("CREATE TABLE").data) stmt = true
    · cases hs : searchCreateTable stmt with
      | none => simp [processSerialStmt, ho, hs]
      | some name => simp [processSerialStmt, ho, hs, h]
    · simp only [Bool.not_eq_true] at ho
      simp [processSerialStmt, ho]
  · intro name ho hs hne
    refine ⟨?_, List.length_map _ _, List.nodup_map_iff
      (sequenceDeclaration_injective _)⟩
    simp [processSerialStmt, ho, hs, hne]

/-- Witness for C2 (amended): `CREATE TABLE s.t ( a serial, b serial )`
has two serial-column matches with distinct names `s_t_a_seq`, `s_t_b_seq`. -/
theorem c2_amended_witness :
    (occursB (("CREATE TABLE").data)
        (("CREATE TABLE s.t ( a serial, b serial );").data) = true ∧
     searchCreateTable (("CREATE TABLE s.t ( a serial, b serial );").data) =
       some (("s.t").data) ∧
     findallSerial (("CREATE TABLE s.t ( a serial, b serial );").data) ≠ []) ∧
    (((findallSerial (("CREATE TABLE s.t ( a serial, b serial );").data)).map
        (sequenceDeclaration ((("s.t").data).map
          fun c => if c = '.' then '_' else c))).Nodup ↔
      (findallSerial (("CREATE TABLE s.t ( a serial, b serial );").data)).Nodup) := by
  refine ⟨⟨by decide, by decide, by decide⟩, ?_⟩
  exact ((c2_amended (("CREATE TABLE s.t ( a serial, b serial );").data)).2.2.2
    (("s.t").data) (by decide) (by decide) (by decide)).2.2

/-!
## Lemmas for the idempotence analysis of `convert_postgres_to_duckdb`
-/

/-- A statement with no serial-column match passes through the serial
processor unchanged. -/
theorem processSerialStmt_of_no_serial (stmt : List Char)
    (h : findallSerial stmt = []) : processSerialStmt stmt = stmt := by
  by_cases ho : occursB (("CREATE TABLE").data) stmt = true
  · cases hs : searchCreateTable stmt with
    | none => simp [processSerialStmt, ho, hs]
    | some name => simp [processSerialStmt, ho, hs, h]
  · simp only [Bool.not_eq_true] at ho
    simp [processSerialStmt, ho]

/-- Joining a single statement with `";"` is the statement itself. -/
theorem intercalate_single (s x : List Char) :
    List.intercalate s [x] = x := by
  simp [List.intercalate, List.intersperse]

/-- A chunk without semicolons closes no statement, from any lexer state. -/
theorem anyClose_of_no_semi (X : List Char) (h : ';' ∉ X) :
    ∀ lx, anyClose lx X = false := by
  induction X with
  | nil => intro lx; rfl
  | cons c rest ih =>
      intro lx
      have hc : c ≠ ';' := fun hc => h (by simp [hc])
      rw [anyClose, Bool.or_eq_false_iff]
      constructor
      · simp [closesHere, hc]
      · exact ih (fun hm => h (by simp [hm])) _

/-- A non-semicolon character never closes a statement. -/
theorem closesHere_of_ne_semi (lx : LexSt) (c : Char) (h : c ≠ ';') :
    closesHere lx c = false := by
  simp [closesHere, h]

/-- Appending to a semicolon-free prefix, the normalizer adds exactly one
newline after the final semicolon. -/
theorem semiNLGo_no_semi (t : List Char) (h : ';' ∉ t) :
    semiNLGo false (t ++ [';']) = (t ++ [';']) ++ ['\n'] := by
  induction t with
  | nil => rfl
  | cons c rest ih =>
      have hc : c ≠ ';' := fun hc => h (by simp [hc])
      simp only [List.cons_append, semiNLGo, Bool.false_and,
        Bool.false_eq_true, if_false, if_neg hc, List.append_eq]
      rw [ih (fun hm => h (by simp [hm]))]

/-- Dropping leading whitespace commutes with appending one character to a
list whose leading-stripped form is non-empty. -/
theorem dropWhile_ws_append_one (X : List Char) (c : Char)
    (hne : X.dropWhile pySpace ≠ []) :
    (X ++ [c]).dropWhile pySpace = X.dropWhile pySpace ++ [c] := by
  induction X with
  | nil => exact absurd rfl hne
  | cons a rest ih =>
      by_cases ha : pySpace a = true
      · simp only [List.dropWhile_cons, ha, if_true, List.cons_append] at hne ⊢
        exact ih hne
      · simp only [Bool.not_eq_true] at ha
        simp [List.dropWhile_cons, ha]

/-- Stripping ignores a trailing newline after a terminating semicolon. -/
theorem pyStripL_semi_nl (X : List Char) :
    pyStripL ((X ++ [';']) ++ ['\n']) = pyStripL (X ++ [';']) := by
  have hne : (X ++ [';']).dropWhile pySpace ≠ [] := by
    rw [dropWhile_ws_append_semi]
    simp
  unfold pyStripL
  rw [dropWhile_ws_append_one _ '\n' hne]
  rw [List.reverse_append]
  rw [show (['\n'] : List Char).reverse = ['\n'] from rfl]
  rw [show ((['\n'] : List Char) ++
      ((X ++ [';']).dropWhile pySpace).reverse).dropWhile pySpace =
      (((X ++ [';']).dropWhile pySpace).reverse).dropWhile pySpace by
    simp [List.dropWhile, pySpace]]

/-- Parsing a single statement (one final top-level-or-not semicolon and a
trailing newline) yields exactly its stripped text: if the lexer is at a
closing state the newline becomes a blank trailing statement that is
filtered out; otherwise the newline stays inside the single statement and
is removed by the strip. -/
theorem parsedStatements_single (t : List Char) (h : ';' ∉ t) :
    parsedStatements ((t ++ [';']) ++ ['\n']) = [pyStripL (t ++ [';'])] := by
  have hstripne : pyStripL (t ++ [';']) ≠ [] := by
    rw [pyStripL_semi]
    simp
  have ht : spRun ⟨.top, [], []⟩ t = ⟨lexRun .top t, t, []⟩ := by
    have := spRun_of_no_close .top t (anyClose_of_no_semi t h .top) [] []
    simpa using this
  by_cases hcl : closesHere (lexRun .top t) ';' = true
  · have h1 : spStep ⟨lexRun .top t, t, []⟩ ';' = ⟨.top, [], [t ++ [';']]⟩ := by
      unfold spStep
      rw [if_pos hcl]
      rfl
    have hraw : rawStatements ((t ++ [';']) ++ ['\n']) =
        [t ++ [';'], ['\n']] := by
      unfold rawStatements
      rw [spRun_append, spRun_append, ht]
      rw [show spRun ⟨lexRun .top t, t, []⟩ [';'] =
        spStep ⟨lexRun .top t, t, []⟩ ';' from rfl]
      rw [h1]
      rfl
    unfold parsedStatements
    rw [hraw]
    simp only [List.map_cons, List.map_nil]
    rw [show pyStripL ['\n'] = [] from rfl]
    simp [List.filter, hstripne]
  · have hcl' : closesHere (lexRun .top t) ';' = false := by
      simp only [Bool.not_eq_true] at hcl
      exact hcl
    have h1 : spStep ⟨lexRun .top t, t, []⟩ ';' =
        ⟨lexStep (lexRun .top t) ';', t ++ [';'], []⟩ := by
      unfold spStep
      rw [if_neg]
      simp [hcl']
    have h2 : spStep ⟨lexStep (lexRun .top t) ';', t ++ [';'], []⟩ '\n' =
        ⟨lexStep (lexStep (lexRun .top t) ';') '\n',
          (t ++ [';']) ++ ['\n'], []⟩ := by
      unfold spStep
      rw [if_neg]
      rw [closesHere_of_ne_semi _ '\n' (by decide)]
      simp
    have hraw : rawStatements ((t ++ [';']) ++ ['\n']) =
        [(t ++ [';']) ++ ['\n']] := by
      unfold rawStatements
      rw [spRun_append, spRun_append, ht]
      rw [show spRun ⟨lexRun .top t, t, []⟩ [';'] =
        spStep ⟨lexRun .top t, t, []⟩ ';' from rfl]
      rw [h1]
      rw [show spRun ⟨lexStep (lexRun .top t) ';', t ++ [';'], []⟩ ['\n'] =
        spStep ⟨lexStep (lexRun .top t) ';', t ++ [';'], []⟩ '\n' from rfl]
      rw [h2]
      simp
    unfold parsedStatements
    rw [hraw]
    simp only [List.map_cons, List.map_nil, pyStripL_semi_nl]
    simp [List.filter, hstripne]

/-- A literal replacement whose pattern does not occur is the identity. -/
theorem replaceAllFuel_no_occur (pat repl : List Char) :
    ∀ (fuel : Nat) (l : List Char), occursB pat l = false →
      replaceAllFuel pat repl fuel l = l := by
  intro fuel
  induction fuel with
  | zero => intro l _; cases l <;> rfl
  | succ fuel ih =>
      intro l hl
      cases l with
      | nil => rfl
      | cons c rest =>
          rw [occursB, Bool.or_eq_false_iff] at hl
          rw [replaceAllFuel]
          rw [if_neg]
          · rw [ih rest hl.2]
          · simp [hl.1]

/-- Does the dot-wildcard pattern `pat` occur anywhere in `l`? -/
def occursDotB (pat : List Char) : List Char → Bool
  | [] => startsWithDot pat []
  | c :: rest => startsWithDot pat (c :: rest) || occursDotB pat rest

/-- A dot-wildcard replacement whose pattern does not occur is the
identity. -/
theorem replaceAllDotFuel_no_occur (pat repl : List Char) :
    ∀ (fuel : Nat) (l : List Char), occursDotB pat l = false →
      replaceAllDotFuel pat repl fuel l = l := by
  intro fuel
  induction fuel with
  | zero => intro l _; cases l <;> rfl
  | succ fuel ih =>
      intro l hl
      cases l with
      | nil => rfl
      | cons c rest =>
          rw [occursDotB, Bool.or_eq_false_iff] at hl
          rw [replaceAllDotFuel]
          rw [if_neg]
          · rw [ih rest hl.2]
          · simp [hl.1]

/-- If `pat` starts `l`, then `l` is `pat` followed by the rest. -/
theorem startsWithL_append (pat : List Char) :
    ∀ l : List Char, startsWithL pat l = true →
      l = pat ++ l.drop pat.length := by
  induction pat with
  | nil => intro l _; rfl
  | cons p ps ih =>
      intro l hl
      cases l with
      | nil => exact absurd hl (by simp [startsWithL])
      | cons c cs =>
          rw [startsWithL, Bool.and_eq_true] at hl
          have hpc : p = c := by
            have := hl.1
            simpa using this
          rw [List.length_cons, List.cons_append]
          rw [show (c :: cs).drop (ps.length + 1) = cs.drop ps.length from rfl]
          rw [hpc]
          rw [← ih cs hl.2]

/-- Replacing a pattern by itself is the identity. -/
theorem replaceAllFuel_self (pat : List Char) :
    ∀ (fuel : Nat) (l : List Char), replaceAllFuel pat pat fuel l = l := by
  intro fuel
  induction fuel with
  | zero => intro l; cases l <;> rfl
  | succ fuel ih =>
      intro l
      cases l with
      | nil => rfl
      | cons c rest =>
          rw [replaceAllFuel]
          by_cases hc : (pat ≠ [] && startsWithL pat (c :: rest)) = true
          · rw [if_pos hc]
            rw [Bool.and_eq_true] at hc
            rw [ih]
            exact (startsWithL_append pat (c :: rest) hc.2).symm
          · rw [if_neg hc]
            rw [ih]

/-- C3 (counterexample): on an already-rewritten, whitespace-normalized
blob (no serial columns, no ON DELETE clauses, no `---` lines, single
spaces, one newline after each semicolon) the rewriter is **not** a no-op:
rejoining the parsed statements with `";"` doubles the separator between
consecutive statements and drops the trailing newline; even a single
normalized statement loses its trailing newline. -/
theorem c3_counterexample :
    convert_postgres_to_duckdb
        ("CREATE TABLE a ( x INTEGER );\nCREATE TABLE b ( y INTEGER );\n") =
      "CREATE TABLE a ( x INTEGER );;CREATE TABLE b ( y INTEGER );" ∧
    convert_postgres_to_duckdb
        ("CREATE TABLE a ( x INTEGER );\nCREATE TABLE b ( y INTEGER );\n") ≠
      "CREATE TABLE a ( x INTEGER );\nCREATE TABLE b ( y INTEGER );\n" ∧
    convert_postgres_to_duckdb ("CREATE TABLE a ( x INTEGER );\n") ≠
      "CREATE TABLE a ( x INTEGER );\n" := by decide

/-- C3 (amended): the rewriter is a no-op exactly on single-statement
blobs in its own output format: for every blob `t ++ ";"` whose body `t`
contains no semicolon, that is already fixed under the `---`-line stripper
and the whitespace collapse, has no leading whitespace, and contains no
serial-column match, no ON DELETE clause, no `as_domains` reference
pattern, no `TEXT[]` and no `MATERIALIZED`, the rewriter returns it
unchanged.  (Multi-statement blobs gain a doubled semicolon per boundary
and lose the trailing newline, so the original claim fails for them.) -/
theorem c3_amended (t : List Char)
    (h1 : ';' ∉ t)
    (h2 : stripDashLines (t ++ [';']) = t ++ [';'])
    (h3 : collapseGo false (t ++ [';']) = t ++ [';'])
    (h4 : (t ++ [';']).dropWhile pySpace = t ++ [';'])
    (h5 : findallSerial (t ++ [';']) = [])
    (h6 : occursB (("ON DELETE SET NULL").data) (t ++ [';']) = false)
    (h7 : occursB (("ON DELETE CASCADE").data) (t ++ [';']) = false)
    (h8 : occursB (("ON DELETE SET DEFAULT").data) (t ++ [';']) = false)
    (h9 : occursDotB (("follows int4 REFERENCES antismash.as_domains").data)
      (t ++ [';']) = false)
    (h10 : occursDotB
      (("as_domain_id int4 NOT NULL REFERENCES antismash.as_domains").data)
      (t ++ [';']) = false)
    (h11 : occursB (("TEXT[]").data) (t ++ [';']) = false)
    (h12 : occursB (("MATERIALIZED").data) (t ++ [';']) = false) :
    convertPostgresCore (t ++ [';']) = t ++ [';'] ∧
    convert_postgres_to_duckdb ⟨t ++ [';']⟩ = ⟨t ++ [';']⟩ := by
  have hstrip : pyStripL (t ++ [';']) = t ++ [';'] := by
    rw [pyStripL_semi]
    rw [dropWhile_ws_append_semi] at h4
    exact h4
  have hserial : convertSerialCore ((t ++ [';']) ++ ['\n']) = t ++ [';'] := by
    unfold convertSerialCore
    rw [parsedStatements_single t h1]
    rw [hstrip]
    rw [List.map_cons, List.map_nil]
    rw [processSerialStmt_of_no_serial _ h5]
    exact intercalate_single _ _
  have hcore : convertPostgresCore (t ++ [';']) = t ++ [';'] := by
    simp only [convertPostgresCore, replaceAllL, replaceAllDotL]
    rw [h2, h3, semiNLGo_no_semi t h1, hserial]
    rw [replaceAllFuel_no_occur _ _ _ _ h6]
    rw [replaceAllFuel_no_occur _ _ _ _ h7]
    rw [replaceAllFuel_no_occur _ _ _ _ h8]
    rw [replaceAllDotFuel_no_occur _ _ _ _ h9]
    rw [replaceAllDotFuel_no_occur _ _ _ _ h10]
    rw [replaceAllFuel_no_occur _ _ _ _ h11]
    rw [replaceAllFuel_no_occur _ _ _ _ h12]
    exact replaceAllFuel_self _ _ _
  exact ⟨hcore, congrArg String.mk hcore⟩

/-- Witness for C3 (amended): a single normalized statement with no
trailing newline is a fixed point of the rewriter. -/
theorem c3_amended_witness :
    (';' ∉ (("CREATE TABLE foo ( x INTEGER )").data) ∧
     findallSerial ((("CREATE TABLE foo ( x INTEGER )").data) ++ [';']) =
       []) ∧
    convertPostgresCore ((("CREATE TABLE foo ( x INTEGER )").data) ++
        [';']) =
      (("CREATE TABLE foo ( x INTEGER )").data) ++ [';'] := by
  refine ⟨⟨by decide, by decide⟩, ?_⟩
  exact (c3_amended (("CREATE TABLE foo ( x INTEGER )").data) (by decide)
    (by decide) (by decide) (by decide) (by decide) (by decide) (by decide)
    (by decide) (by decide) (by decide) (by decide) (by decide)).1
